import Mathlib

/-!
Verification of the PostService CRUD handlers (src/handler.py) of the
AWS-REST-API-Gateway repository: a shallow embedding of the five Lambda
handlers (create, get, all, update, delete) over a DynamoDB-style
key-value store, together with proofs of the spec claims.

Nondeterministic inputs of the Python code (uuid.uuid4(),
datetime.now().isoformat(), the HTTP status reported by a store call)
are passed in as explicit parameters.  A handler invocation that raises
a Python exception (KeyError on a missing event field, json.JSONDecodeError
on a malformed body) is modelled as `Option.none`.
-/

/-- A DynamoDB-style typed attribute value.  All attributes of a `post`
record are string-typed (spec section 6: "string-typed values"), so the
wire form of a value is the tagged string attribute. -/
structure AttrVal where
  S : String
deriving DecidableEq, Repr

/-- A plain key/value mapping, as produced by `json.loads`: an ordered
association list of string keys to string values (Python dicts preserve
insertion order). -/
abbrev Plain := List (String × String)

/-- A store-native record: an ordered mapping from attribute names to
typed attribute values. -/
abbrev Item := List (String × AttrVal)

/-- Look up key `k` in an association list: the Python `d[k]` /
`k in d` discipline (first match wins). -/
def assocGet {α : Type} (d : List (String × α)) (k : String) : Option α :=
  match d with
  | [] => none
  | kv :: rest => if kv.1 = k then some kv.2 else assocGet rest k

/-- Set key `k` to `v` in an association list: Python `d[k] = v`
semantics — an existing binding is overwritten in place, a new key is
appended at the end. -/
def assocSet {α : Type} (d : List (String × α)) (k : String) (v : α) :
    List (String × α) :=
  match d with
  | [] => [(k, v)]
  | kv :: rest => if kv.1 = k then (k, v) :: rest else kv :: assocSet rest k v

/-- Modelled from the spec: the repository's `dynamo` marshaling helper
is imported by src/handler.py but its source is not under src/.  The spec
describes it as "conversion between a plain key/value mapping and the
store's native typed attribute representation"; `to_item_val` is the
scalar direction used for single values in `update`'s expression
attribute values. -/
def to_item_val (v : String) : AttrVal := ⟨v⟩

/-- Modelled from the spec: `dynamo.to_item` converts a plain key/value
mapping to the store's typed wire representation, field by field. -/
def to_item (p : Plain) : Item := p.map (fun kv => (kv.1, to_item_val kv.2))

/-- Modelled from the spec: `dynamo.to_dict` converts a store-native
record back to a plain key/value mapping, field by field. -/
def to_dict (it : Item) : Plain := it.map (fun kv => (kv.1, kv.2.S))

/-- The primary key of a store-native record: the string value of its
`id` attribute, when present. -/
def itemId (it : Item) : Option String := (assocGet it "id").map AttrVal.S

/-- The backing table: the collection of records in scan order. -/
abbrev Store := List Item

/-- Store semantics of `put_item` (spec section 2, Store.`put`): replace
the record whose `id` key equals the new item's, or append the item if no
record has that key. -/
def storePut (st : Store) (it : Item) : Store :=
  match st with
  | [] => [it]
  | it' :: rest => if itemId it' = itemId it then it :: rest else it' :: storePut rest it

/-- Store semantics of `get_item` (spec section 2, Store.`getByKey`):
the record with the given `id` key, if any. -/
def storeGet (st : Store) (k : String) : Option Item :=
  match st with
  | [] => none
  | it :: rest => if itemId it = some k then some it else storeGet rest k

/-- Store semantics of `scan` (spec section 2, Store.`scanAll`): every
record, in scan order. -/
def scanAll (st : Store) : List Item := st

/-- Store semantics of `update_item` with a SET expression (spec
section 2, Store.`update`): apply the attribute deltas `δ` to the record
with the given key; when no such record exists the store creates a
partial record holding only the key and the set attributes (the latent
implicit-creation behavior the spec flags in section 4.1). -/
def storeUpdate (st : Store) (k : String) (δ : Item → Item) : Store :=
  match st with
  | [] => [δ [("id", ⟨k⟩)]]
  | it :: rest => if itemId it = some k then δ it :: rest else it :: storeUpdate rest k δ

/-- Store semantics of `delete_item` (spec section 2, Store.`delete`):
unconditional removal by key; succeeds whether or not the key existed. -/
def storeDelete (st : Store) (k : String) : Store :=
  st.filter (fun it => ¬ itemId it = some k)

/-- The SET expression of `update` in src/handler.py line 167:
`set content=:c, author=:a, updatedAt=:u`, with the three expression
attribute values marshalled by `dynamo.to_item`. -/
def setExpr (c a u : String) (it : Item) : Item :=
  assocSet (assocSet (assocSet it "content" (to_item_val c)) "author" (to_item_val a))
    "updatedAt" (to_item_val u)

/-- The serialized request body as seen by `json.loads`: either a JSON
object of string fields, or malformed text on which `json.loads`
raises. -/
inductive RawBody
  | malformed
  | obj (fields : Plain)
deriving DecidableEq, Repr

/-- `json.loads`: parse the body, failing (raising) on malformed input. -/
def jsonLoads : RawBody → Option Plain
  | RawBody.malformed => none
  | RawBody.obj p => some p

/-- One character of Python `json.dumps` string escaping. -/
def jsonEscapeChar (c : Char) : String :=
  if c = '\\' then "\\\\" else if c = '"' then "\\\"" else String.singleton c

/-- Python `json.dumps` of a string value. -/
def jsonStr (s : String) : String :=
  "\"" ++ String.join (s.toList.map jsonEscapeChar) ++ "\""

/-- Python `json.dumps` of a flat string-valued object. -/
def jsonObj (p : Plain) : String :=
  "\x7b" ++ String.intercalate ", " (p.map fun kv => jsonStr kv.1 ++ ": " ++ jsonStr kv.2)
    ++ "\x7d"

/-- Python `json.dumps` of an array of flat objects. -/
def jsonArr (ps : List Plain) : String :=
  "[" ++ String.intercalate ", " (ps.map jsonObj) ++ "]"

/-- The API Gateway event passed to a handler.  A field read on a
missing entry (`event["body"]`, `event["pathParameters"]["postId"]`)
raises KeyError, modelled by the `Option` layers. -/
structure Event where
  body : Option RawBody := none
  pathParameters : Option Plain := none
deriving DecidableEq, Repr

/-- The uniform response envelope `{statusCode, headers?, body?}`
returned by every handler. -/
structure Response where
  statusCode : Nat
  headers : List (String × String) := []
  body : Option String := none
deriving DecidableEq, Repr

namespace Handler

/-- src/handler.py `create`: parse the body, stamp `createdAt` with the
current time and `id` with a fresh UUID, `put_item` the marshalled
record; 201 on a 200 store status, otherwise the 500 default envelope.
`now`, `freshId` and `putStatus` stand for `datetime.now().isoformat()`,
`str(uuid.uuid4())` and the put response's HTTPStatusCode. -/
def create (ev : Event) (now freshId : String) (st : Store) (putStatus : Nat) :
    Option (Response × Store) := do
  let post_str ← ev.body
  let post ← jsonLoads post_str
  let post := assocSet post "createdAt" now
  let post := assocSet post "id" freshId
  let st' := storePut st (to_item post)
  let response : Response :=
    if putStatus = 200 then { statusCode := 201 }
    else { statusCode := 500, body := some "An error occurred while creating post." }
  some (response, st')

/-- src/handler.py `get`: read the `postId` path parameter, `get_item`
by key; on a hit, 200 with the JSON of the unmarshalled record and a
Content-Type header, otherwise the 500 default envelope.  The handler
performs no store write, so the store is returned unchanged. -/
def get (ev : Event) (st : Store) : Option (Response × Store) := do
  let params ← ev.pathParameters
  let post_id ← assocGet params "postId"
  let response : Response :=
    match storeGet st post_id with
    | some post =>
        { statusCode := 200
          headers := [("Content-Type", "application/json")]
          body := some (jsonObj (to_dict post)) }
    | none => { statusCode := 500, body := some "An error occurred while getting post." }
  some (response, st)

/-- src/handler.py `all`: scan the table, unmarshal every item into the
`posts` accumulator in a loop, and return 200 with the JSON array —
unconditionally: the scan response's status (`_scanStatus`) is never
inspected, so the 500 default envelope set at the top of the function is
dead. -/
def all (st : Store) (_scanStatus : Nat) : Response :=
  let scan_result := scanAll st
  let posts := scan_result.foldl (fun acc item => acc ++ [to_dict item]) ([] : List Plain)
  { statusCode := 200, body := some (jsonArr posts) }

/-- src/handler.py `update`: read the `postId` path parameter, parse the
body, `update_item` with `set content=:c, author=:a, updatedAt=:u`
(raising KeyError when `content` or `author` is absent from the body);
200 on a 200 store status, otherwise the 500 default envelope with the
id interpolated into the message. -/
def update (ev : Event) (now : String) (st : Store) (updStatus : Nat) :
    Option (Response × Store) := do
  let params ← ev.pathParameters
  let post_id ← assocGet params "postId"
  let post_str ← ev.body
  let post ← jsonLoads post_str
  let c ← assocGet post "content"
  let a ← assocGet post "author"
  let st' := storeUpdate st post_id (setExpr c a now)
  let response : Response :=
    if updStatus = 200 then { statusCode := 200 }
    else { statusCode := 500
           body := some ("An error occurred while updating post " ++ post_id) }
  some (response, st')

/-- src/handler.py `delete`: read the `postId` path parameter,
`delete_item` by key; 204 on a 200 store status, otherwise the 500
default envelope with the id interpolated into the message. -/
def delete (ev : Event) (st : Store) (delStatus : Nat) :
    Option (Response × Store) := do
  let params ← ev.pathParameters
  let post_id ← assocGet params "postId"
  let st' := storeDelete st post_id
  let response : Response :=
    if delStatus = 200 then { statusCode := 204 }
    else { statusCode := 500
           body := some ("An error occurred while deleting post " ++ post_id) }
  some (response, st')

end Handler

/-- The response of `get` as a function of the store entry for the
requested id alone: 200 with the record's JSON on a hit, the 500 default
envelope on a miss. -/
def getRespOf : Option Item → Response
  | some post =>
      { statusCode := 200
        headers := [("Content-Type", "application/json")]
        body := some (jsonObj (to_dict post)) }
  | none => { statusCode := 500, body := some "An error occurred while getting post." }

/-! ### Helper lemmas on association lists and the store -/

theorem assocGet_assocSet_self {α : Type} (d : List (String × α)) (k : String) (v : α) :
    assocGet (assocSet d k v) k = some v := by
  induction d with
  | nil => simp [assocSet, assocGet]
  | cons kv rest ih =>
      by_cases h : kv.1 = k
      · simp [assocSet, assocGet, h]
      · simp [assocSet, assocGet, h, ih]

theorem assocGet_assocSet_ne {α : Type} (d : List (String × α)) (k k' : String) (v : α)
    (h : k' ≠ k) : assocGet (assocSet d k' v) k = assocGet d k := by
  induction d with
  | nil => simp [assocSet, assocGet, h]
  | cons kv rest ih =>
      by_cases hk : kv.1 = k'
      · simp [assocSet, assocGet, hk, h, Ne.symm h]
      · simp [assocSet, assocGet, hk, ih]

theorem assocGet_to_item (p : Plain) (k : String) :
    assocGet (to_item p) k = (assocGet p k).map to_item_val := by
  induction p with
  | nil => simp [to_item, assocGet]
  | cons kv rest ih =>
      by_cases h : kv.1 = k
      · simp [to_item, assocGet, h]
      · simpa [to_item, assocGet, h] using ih

theorem to_dict_to_item (p : Plain) : to_dict (to_item p) = p := by
  induction p with
  | nil => rfl
  | cons kv rest ih => simpa [to_dict, to_item, to_item_val] using ih

theorem itemId_to_item (p : Plain) : itemId (to_item p) = assocGet p "id" := by
  rw [itemId, assocGet_to_item]
  cases assocGet p "id" <;> simp [to_item_val]

theorem storeGet_storePut_self (st : Store) (it : Item) (k : String)
    (hk : itemId it = some k) : storeGet (storePut st it) k = some it := by
  induction st with
  | nil => simp [storePut, storeGet, hk]
  | cons it' rest ih =>
      by_cases h : itemId it' = itemId it
      · simp [storePut, storeGet, h, hk]
      · have h' : ¬ itemId it' = some k := by rw [← hk]; exact h
        simp [storePut, storeGet, h, h', ih]

theorem storePut_of_storeGet_none (st : Store) (it : Item) (k : String)
    (hk : itemId it = some k) (hfresh : storeGet st k = none) :
    storePut st it = st ++ [it] := by
  induction st with
  | nil => simp [storePut]
  | cons it' rest ih =>
      simp only [storeGet] at hfresh
      by_cases h : itemId it' = some k
      · simp [h] at hfresh
      · have hne : ¬ itemId it' = itemId it := by rw [hk]; exact h
        simp [h] at hfresh
        simp [storePut, hne, ih hfresh]

theorem itemId_setExpr (c a u : String) (it : Item) :
    itemId (setExpr c a u it) = itemId it := by
  unfold setExpr itemId
  rw [assocGet_assocSet_ne _ _ _ _ (by decide),
    assocGet_assocSet_ne _ _ _ _ (by decide),
    assocGet_assocSet_ne _ _ _ _ (by decide)]

theorem storeGet_storeUpdate_self (st : Store) (k : String) (it : Item)
    (δ : Item → Item) (hδ : ∀ j, itemId (δ j) = itemId j)
    (hit : storeGet st k = some it) :
    storeGet (storeUpdate st k δ) k = some (δ it) := by
  induction st with
  | nil => simp [storeGet] at hit
  | cons it' rest ih =>
      simp only [storeGet] at hit
      by_cases h : itemId it' = some k
      · simp [h] at hit
        subst hit
        simp [storeUpdate, storeGet, h, hδ]
      · simp [h] at hit
        simp [storeUpdate, storeGet, h, ih hit]

theorem storeGet_storeUpdate_ne (st : Store) (k q : String)
    (δ : Item → Item) (hδ : ∀ j, itemId (δ j) = itemId j)
    (hq : q ≠ k) : storeGet (storeUpdate st k δ) q = storeGet st q := by
  have hkq : ¬ ((k : String) = q) := fun hh => hq hh.symm
  induction st with
  | nil =>
      have hid : itemId (δ [("id", ⟨k⟩)]) = some k := by
        rw [hδ]; simp [itemId, assocGet]
      simp [storeUpdate, storeGet, hid, hkq]
  | cons it' rest ih =>
      by_cases h : itemId it' = some k
      · have h2 : itemId (δ it') = some k := by rw [hδ]; exact h
        have h3 : ¬ itemId (δ it') = some q := by simp [h2, hkq]
        have h4 : ¬ itemId it' = some q := by simp [h, hkq]
        simp [storeUpdate, storeGet, h, h3, h4, hkq]
      · by_cases h5 : itemId it' = some q
        · simp [storeUpdate, storeGet, h, h5, hq]
        · simp [storeUpdate, storeGet, h, h5, ih]

theorem storeGet_storeDelete_self (st : Store) (k : String) :
    storeGet (storeDelete st k) k = none := by
  induction st with
  | nil => simp [storeDelete, storeGet]
  | cons it rest ih =>
      by_cases h : itemId it = some k
      · simpa [storeDelete, h] using ih
      · simpa [storeDelete, storeGet, h] using ih

theorem storeDelete_storeDelete (st : Store) (k : String) :
    storeDelete (storeDelete st k) k = storeDelete st k := by
  simp [storeDelete, List.filter_filter]

theorem all_foldl_eq_map (st : List Item) (acc : List Plain) :
    st.foldl (fun acc item => acc ++ [to_dict item]) acc = acc ++ st.map to_dict := by
  induction st generalizing acc with
  | nil => simp
  | cons it rest ih => simp [List.foldl_cons, ih]

/-! ### Claim theorems -/

/-- C2: for every create input, the record written to the store carries a
server-assigned `id` (the fresh UUID) and `createdAt` (the current time),
both set after parsing the body; any client-supplied `id` or `createdAt`
is overwritten by `assocSet` and never reaches the store. -/
theorem create_assigns_id_and_createdAt (p : Plain) (pp : Option Plain)
    (now freshId : String) (st : Store) (putStatus : Nat) :
    Handler.create { body := some (RawBody.obj p), pathParameters := pp }
        now freshId st putStatus =
      some ((if putStatus = 200 then { statusCode := 201 }
             else { statusCode := 500,
                    body := some "An error occurred while creating post." }),
        storePut st (to_item (assocSet (assocSet p "createdAt" now) "id" freshId))) ∧
    assocGet (assocSet (assocSet p "createdAt" now) "id" freshId) "id" = some freshId ∧
    assocGet (assocSet (assocSet p "createdAt" now) "id" freshId) "createdAt" = some now ∧
    itemId (to_item (assocSet (assocSet p "createdAt" now) "id" freshId)) = some freshId := by
  refine ⟨rfl, assocGet_assocSet_self .., ?_, ?_⟩
  · rw [assocGet_assocSet_ne _ _ _ _ (by decide)]
    exact assocGet_assocSet_self ..
  · rw [itemId_to_item]
    exact assocGet_assocSet_self ..

/-- C9: for every store state (and whatever status the scan reports),
`all` returns statusCode 200 with the JSON serialization of the array of
scanned records converted to plain key/value form, one element per
record, in scan order. -/
theorem all_returns_scan_as_json_array (st : Store) (scanStatus : Nat) :
    Handler.all st scanStatus =
      { statusCode := 200, headers := [],
        body := some (jsonArr ((scanAll st).map to_dict)) } := by
  simp [Handler.all, all_foldl_eq_map]

/-- C8: when the body parses and the put reports HTTP 200, create
returns statusCode 201 with no body, and the new store is the old store
with exactly one appended record (the marshalled post). -/
theorem create_success_appends_one_record (p : Plain) (pp : Option Plain)
    (now freshId : String) (st : Store)
    (hfresh : storeGet st freshId = none) :
    Handler.create { body := some (RawBody.obj p), pathParameters := pp }
        now freshId st 200 =
      some ({ statusCode := 201, headers := [], body := none },
        st ++ [to_item (assocSet (assocSet p "createdAt" now) "id" freshId)]) := by
  have hid : itemId (to_item (assocSet (assocSet p "createdAt" now) "id" freshId))
      = some freshId := by
    rw [itemId_to_item]; exact assocGet_assocSet_self ..
  simp [Handler.create, jsonLoads, storePut_of_storeGet_none _ _ _ hid hfresh]

/-- C8 witness: a concrete successful create appending one record. -/
theorem create_success_appends_one_record_witness :
    storeGet [] "id0" = none ∧
    Handler.create { body := some (RawBody.obj [("content", "hello"), ("author", "alice")])
                     pathParameters := none } "t0" "id0" [] 200 =
      some ({ statusCode := 201, headers := [], body := none },
        [] ++ [to_item (assocSet (assocSet [("content", "hello"), ("author", "alice")]
          "createdAt" "t0") "id" "id0")]) :=
  ⟨rfl, create_success_appends_one_record [("content", "hello"), ("author", "alice")]
    none "t0" "id0" [] rfl⟩

/-- C1: a get with the freshly created record's id, immediately after a
successful create on any store, returns 200 with a body equal to the
created record's JSON (the marshalling round-trip `to_dict` after
`to_item` preserving every field of every record). -/
theorem create_then_get_roundtrip (p : Plain) (now freshId : String) (st : Store) :
    (∃ st',
      Handler.create { body := some (RawBody.obj p) } now freshId st 200 =
        some ({ statusCode := 201, headers := [], body := none }, st') ∧
      Handler.get { body := none, pathParameters := some [("postId", freshId)] } st' =
        some ({ statusCode := 200
                headers := [("Content-Type", "application/json")]
                body := some (jsonObj (assocSet (assocSet p "createdAt" now) "id" freshId)) },
          st')) ∧
    (∀ q : Plain, to_dict (to_item q) = q) := by
  refine ⟨⟨storePut st (to_item (assocSet (assocSet p "createdAt" now) "id" freshId)),
    rfl, ?_⟩, to_dict_to_item⟩
  have hid : itemId (to_item (assocSet (assocSet p "createdAt" now) "id" freshId))
      = some freshId := by
    rw [itemId_to_item]; exact assocGet_assocSet_self ..
  have hget := storeGet_storePut_self st
    (to_item (assocSet (assocSet p "createdAt" now) "id" freshId)) freshId hid
  simp [Handler.get, assocGet, hget, to_dict_to_item]

/-- C3: with a `postId` path parameter, get returns 200 with a
Content-Type: application/json header and the JSON of the record
converted to plain key/value form when the store holds that id, and the
generic 500 envelope with the fixed body "An error occurred while
getting post." when it does not. -/
theorem get_found_200_notfound_500 (b : Option RawBody) (params : Plain)
    (pid : String) (st : Store)
    (hpid : assocGet params "postId" = some pid) :
    Handler.get { body := b, pathParameters := some params } st =
      some ((match storeGet st pid with
        | some post =>
            { statusCode := 200
              headers := [("Content-Type", "application/json")]
              body := some (jsonObj (to_dict post)) }
        | none =>
            { statusCode := 500, headers := []
              body := some "An error occurred while getting post." }), st) := by
  cases hs : storeGet st pid <;> simp [Handler.get, hpid, hs]

/-- C3 witness: a concrete get on a one-record store (a hit) and on the
empty store (a miss). -/
theorem get_found_200_notfound_500_witness :
    assocGet [("postId", "p1")] "postId" = some "p1" ∧
    Handler.get { body := none, pathParameters := some [("postId", "p1")] }
        [[("id", ⟨"p1"⟩), ("author", ⟨"alice"⟩)]] =
      some ((match storeGet [[("id", (⟨"p1"⟩ : AttrVal)), ("author", ⟨"alice"⟩)]] "p1" with
        | some post =>
            { statusCode := 200
              headers := [("Content-Type", "application/json")]
              body := some (jsonObj (to_dict post)) }
        | none =>
            { statusCode := 500, headers := []
              body := some "An error occurred while getting post." }),
        [[("id", ⟨"p1"⟩), ("author", ⟨"alice"⟩)]]) ∧
    Handler.get { body := none, pathParameters := some [("postId", "p1")] } [] =
      some ((match storeGet [] "p1" with
        | some post =>
            { statusCode := 200
              headers := [("Content-Type", "application/json")]
              body := some (jsonObj (to_dict post)) }
        | none =>
            { statusCode := 500, headers := []
              body := some "An error occurred while getting post." }), []) :=
  ⟨by decide,
    get_found_200_notfound_500 none [("postId", "p1")] "p1"
      [[("id", ⟨"p1"⟩), ("author", ⟨"alice"⟩)]] (by decide),
    get_found_200_notfound_500 none [("postId", "p1")] "p1" [] (by decide)⟩

/-- C10: get never mutates the store (the returned store is the input
store) and its response is a function of the store entry for the given
postId alone: two stores agreeing on that entry yield identical
responses, whatever else they contain and whatever the event body is. -/
theorem get_pure_and_noninterfering (b b' : Option RawBody) (params : Plain)
    (pid : String) (st1 st2 : Store)
    (hpid : assocGet params "postId" = some pid)
    (hagree : storeGet st1 pid = storeGet st2 pid) :
    Handler.get { body := b, pathParameters := some params } st1 =
      some (getRespOf (storeGet st1 pid), st1) ∧
    (Handler.get { body := b, pathParameters := some params } st1).map Prod.fst =
      (Handler.get { body := b', pathParameters := some params } st2).map Prod.fst := by
  constructor
  · cases hs : storeGet st1 pid <;> simp [Handler.get, hpid, hs, getRespOf]
  · cases hs : storeGet st1 pid <;>
      simp [Handler.get, hpid, hs, hagree.symm.trans hs]

/-- C10 witness: two concrete stores sharing the entry for "p1" but
differing elsewhere give the same response, without mutation. -/
theorem get_pure_and_noninterfering_witness :
    assocGet [("postId", "p1")] "postId" = some "p1" ∧
    storeGet [[("id", (⟨"p1"⟩ : AttrVal))]] "p1" =
      storeGet [[("id", (⟨"zz"⟩ : AttrVal))], [("id", ⟨"p1"⟩)]] "p1" ∧
    (Handler.get { body := none, pathParameters := some [("postId", "p1")] }
        [[("id", ⟨"p1"⟩)]] =
      some (getRespOf (storeGet [[("id", (⟨"p1"⟩ : AttrVal))]] "p1"),
        [[("id", ⟨"p1"⟩)]]) ∧
    (Handler.get { body := none, pathParameters := some [("postId", "p1")] }
        [[("id", ⟨"p1"⟩)]]).map Prod.fst =
      (Handler.get { body := some RawBody.malformed,
                     pathParameters := some [("postId", "p1")] }
        [[("id", ⟨"zz"⟩)], [("id", ⟨"p1"⟩)]]).map Prod.fst) :=
  ⟨by decide, by decide,
    get_pure_and_noninterfering none (some RawBody.malformed) [("postId", "p1")] "p1"
      [[("id", ⟨"p1"⟩)]] [[("id", ⟨"zz"⟩)], [("id", ⟨"p1"⟩)]] (by decide) (by decide)⟩

/-- C7: delete is idempotent: with a `postId` path parameter and a 200
store status it returns 204 with empty body on any store (whether or not
the id is present), a second delete with the same id again returns 204,
and the resulting store holds no record with that key. -/
theorem delete_idempotent_204 (b b2 : Option RawBody) (params : Plain)
    (pid : String) (st : Store)
    (hpid : assocGet params "postId" = some pid) :
    Handler.delete { body := b, pathParameters := some params } st 200 =
      some ({ statusCode := 204, headers := [], body := none }, storeDelete st pid) ∧
    Handler.delete { body := b2, pathParameters := some params }
        (storeDelete st pid) 200 =
      some ({ statusCode := 204, headers := [], body := none }, storeDelete st pid) ∧
    storeGet (storeDelete st pid) pid = none := by
  refine ⟨?_, ?_, storeGet_storeDelete_self st pid⟩
  · simp [Handler.delete, hpid]
  · simp [Handler.delete, hpid, storeDelete_storeDelete]

/-- C7 witness: deleting "p1" from a store that has it, then deleting it
again, both returning 204. -/
theorem delete_idempotent_204_witness :
    assocGet [("postId", "p1")] "postId" = some "p1" ∧
    (Handler.delete { body := none, pathParameters := some [("postId", "p1")] }
        [[("id", (⟨"p1"⟩ : AttrVal))]] 200 =
      some ({ statusCode := 204, headers := [], body := none },
        storeDelete [[("id", ⟨"p1"⟩)]] "p1") ∧
    Handler.delete { body := none, pathParameters := some [("postId", "p1")] }
        (storeDelete [[("id", (⟨"p1"⟩ : AttrVal))]] "p1") 200 =
      some ({ statusCode := 204, headers := [], body := none },
        storeDelete [[("id", ⟨"p1"⟩)]] "p1") ∧
    storeGet (storeDelete [[("id", (⟨"p1"⟩ : AttrVal))]] "p1") "p1" = none) :=
  ⟨by decide,
    delete_idempotent_204 none none [("postId", "p1")] "p1"
      [[("id", ⟨"p1"⟩)]] (by decide)⟩

/-- C6: update touches exactly `content`, `author` and `updatedAt` (the
last set to the current time) on the record with the given id: every
other attribute of that record — `id` and `createdAt` included — and
every other record of the store are unchanged, and any body field other
than `content` and `author` is ignored (two bodies agreeing on those two
fields produce the same result). -/
theorem update_touches_exactly_three (params p p2 : Plain) (pid c a now : String)
    (st : Store) (it : Item) (updStatus : Nat) (k q : String)
    (hpid : assocGet params "postId" = some pid)
    (hc : assocGet p "content" = some c) (ha : assocGet p "author" = some a)
    (hit : storeGet st pid = some it)
    (hk1 : k ≠ "content") (hk2 : k ≠ "author") (hk3 : k ≠ "updatedAt")
    (hq : q ≠ pid)
    (hc2 : assocGet p2 "content" = some c) (ha2 : assocGet p2 "author" = some a) :
    Handler.update { body := some (RawBody.obj p), pathParameters := some params }
        now st updStatus =
      some ((if updStatus = 200 then { statusCode := 200 }
             else { statusCode := 500
                    body := some ("An error occurred while updating post " ++ pid) }),
        storeUpdate st pid (setExpr c a now)) ∧
    storeGet (storeUpdate st pid (setExpr c a now)) pid = some (setExpr c a now it) ∧
    assocGet (setExpr c a now it) "updatedAt" = some (to_item_val now) ∧
    assocGet (setExpr c a now it) "content" = some (to_item_val c) ∧
    assocGet (setExpr c a now it) "author" = some (to_item_val a) ∧
    assocGet (setExpr c a now it) k = assocGet it k ∧
    storeGet (storeUpdate st pid (setExpr c a now)) q = storeGet st q ∧
    Handler.update { body := some (RawBody.obj p2), pathParameters := some params }
        now st updStatus =
      Handler.update { body := some (RawBody.obj p), pathParameters := some params }
        now st updStatus := by
  refine ⟨?_, ?_, ?_, ?_, ?_, ?_, ?_, ?_⟩
  · simp [Handler.update, jsonLoads, hpid, hc, ha]
  · exact storeGet_storeUpdate_self st pid it _ (itemId_setExpr c a now) hit
  · exact assocGet_assocSet_self ..
  · unfold setExpr
    rw [assocGet_assocSet_ne _ _ _ _ (by decide),
      assocGet_assocSet_ne _ _ _ _ (by decide)]
    exact assocGet_assocSet_self ..
  · unfold setExpr
    rw [assocGet_assocSet_ne _ _ _ _ (by decide)]
    exact assocGet_assocSet_self ..
  · unfold setExpr
    rw [assocGet_assocSet_ne _ _ _ _ (Ne.symm hk3),
      assocGet_assocSet_ne _ _ _ _ (Ne.symm hk2),
      assocGet_assocSet_ne _ _ _ _ (Ne.symm hk1)]
  · exact storeGet_storeUpdate_ne st pid q _ (itemId_setExpr c a now) hq
  · simp [Handler.update, jsonLoads, hpid, hc, ha, hc2, ha2]

/-- C6 witness: a concrete update on a one-record store, checking the
frame on `createdAt`, on an unrelated id, and on a body with an extra
ignored field. -/
theorem update_touches_exactly_three_witness :
    assocGet [("postId", "p1")] "postId" = some "p1" ∧
    assocGet [("content", "x"), ("author", "y")] "content" = some "x" ∧
    assocGet [("content", "x"), ("author", "y")] "author" = some "y" ∧
    storeGet [[("id", (⟨"p1"⟩ : AttrVal)), ("createdAt", ⟨"t0"⟩)]] "p1" =
      some [("id", ⟨"p1"⟩), ("createdAt", ⟨"t0"⟩)] ∧
    ("createdAt" : String) ≠ "content" ∧
    ("createdAt" : String) ≠ "author" ∧
    ("createdAt" : String) ≠ "updatedAt" ∧
    ("q9" : String) ≠ "p1" ∧
    assocGet [("content", "x"), ("author", "y"), ("extra", "z")] "content" = some "x" ∧
    assocGet [("content", "x"), ("author", "y"), ("extra", "z")] "author" = some "y" ∧
    (Handler.update { body := some (RawBody.obj [("content", "x"), ("author", "y")])
                      pathParameters := some [("postId", "p1")] }
        "t1" [[("id", ⟨"p1"⟩), ("createdAt", ⟨"t0"⟩)]] 200 =
      some ((if (200 : Nat) = 200 then { statusCode := 200 }
             else { statusCode := 500
                    body := some ("An error occurred while updating post " ++ "p1") }),
        storeUpdate [[("id", ⟨"p1"⟩), ("createdAt", ⟨"t0"⟩)]] "p1"
          (setExpr "x" "y" "t1")) ∧
    storeGet (storeUpdate [[("id", (⟨"p1"⟩ : AttrVal)), ("createdAt", ⟨"t0"⟩)]] "p1"
        (setExpr "x" "y" "t1")) "p1" =
      some (setExpr "x" "y" "t1" [("id", ⟨"p1"⟩), ("createdAt", ⟨"t0"⟩)]) ∧
    assocGet (setExpr "x" "y" "t1" [("id", (⟨"p1"⟩ : AttrVal)), ("createdAt", ⟨"t0"⟩)])
        "updatedAt" = some (to_item_val "t1") ∧
    assocGet (setExpr "x" "y" "t1" [("id", (⟨"p1"⟩ : AttrVal)), ("createdAt", ⟨"t0"⟩)])
        "content" = some (to_item_val "x") ∧
    assocGet (setExpr "x" "y" "t1" [("id", (⟨"p1"⟩ : AttrVal)), ("createdAt", ⟨"t0"⟩)])
        "author" = some (to_item_val "y") ∧
    assocGet (setExpr "x" "y" "t1" [("id", (⟨"p1"⟩ : AttrVal)), ("createdAt", ⟨"t0"⟩)])
        "createdAt" =
      assocGet [("id", (⟨"p1"⟩ : AttrVal)), ("createdAt", ⟨"t0"⟩)] "createdAt" ∧
    storeGet (storeUpdate [[("id", (⟨"p1"⟩ : AttrVal)), ("createdAt", ⟨"t0"⟩)]] "p1"
        (setExpr "x" "y" "t1")) "q9" =
      storeGet [[("id", (⟨"p1"⟩ : AttrVal)), ("createdAt", ⟨"t0"⟩)]] "q9" ∧
    Handler.update
        { body := some (RawBody.obj [("content", "x"), ("author", "y"), ("extra", "z")])
          pathParameters := some [("postId", "p1")] }
        "t1" [[("id", ⟨"p1"⟩), ("createdAt", ⟨"t0"⟩)]] 200 =
      Handler.update { body := some (RawBody.obj [("content", "x"), ("author", "y")])
                       pathParameters := some [("postId", "p1")] }
        "t1" [[("id", ⟨"p1"⟩), ("createdAt", ⟨"t0"⟩)]] 200) :=
  ⟨by decide, by decide, by decide, by decide, by decide, by decide, by decide,
    by decide, by decide, by decide,
    update_touches_exactly_three [("postId", "p1")]
      [("content", "x"), ("author", "y")]
      [("content", "x"), ("author", "y"), ("extra", "z")]
      "p1" "x" "y" "t1" [[("id", ⟨"p1"⟩), ("createdAt", ⟨"t0"⟩)]]
      [("id", ⟨"p1"⟩), ("createdAt", ⟨"t0"⟩)] 200 "createdAt" "q9"
      (by decide) (by decide) (by decide) (by decide) (by decide) (by decide)
      (by decide) (by decide) (by decide) (by decide)⟩

/-- C4 counterexample: the handlers install no exception handler, so a
malformed (non-JSON) body makes create raise (`none`: no envelope is
returned), and an update body missing `content` raises KeyError —
contradicting the claim that every input yields a response envelope. -/
theorem operations_raise_counterexample :
    Handler.create { body := some RawBody.malformed, pathParameters := none }
      "t0" "id0" [] 200 = none ∧
    Handler.update { body := some (RawBody.obj [("author", "alice")])
                     pathParameters := some [("postId", "p1")] }
      "t0" [] 200 = none := by
  exact ⟨rfl, by decide⟩

/-- C4 amended: each operation returns a response envelope when its
inputs are well-formed — body present and parsing as JSON for create and
update, `content` and `author` present in the update body, `postId`
present in the path parameters for get, update and delete; a malformed
body or a missing required field instead propagates as an exception past
the operation entry point (modelled as `none`). -/
theorem operations_envelope_on_wellformed_input (p p0 params : Plain)
    (pid c a now freshId : String) (st : Store) (status : Nat) (b : Option RawBody)
    (hpid : assocGet params "postId" = some pid)
    (hc : assocGet p "content" = some c) (ha : assocGet p "author" = some a)
    (h0 : assocGet p0 "content" = none) :
    (Handler.create { body := some (RawBody.obj p), pathParameters := some params }
      now freshId st status).isSome ∧
    Handler.create { body := some RawBody.malformed, pathParameters := some params }
      now freshId st status = none ∧
    (Handler.get { body := b, pathParameters := some params } st).isSome ∧
    (Handler.update { body := some (RawBody.obj p), pathParameters := some params }
      now st status).isSome ∧
    Handler.update { body := some RawBody.malformed, pathParameters := some params }
      now st status = none ∧
    Handler.update { body := some (RawBody.obj p0), pathParameters := some params }
      now st status = none ∧
    (Handler.delete { body := b, pathParameters := some params } st status).isSome := by
  refine ⟨?_, ?_, ?_, ?_, ?_, ?_, ?_⟩
  · simp [Handler.create, jsonLoads]
  · simp [Handler.create, jsonLoads]
  · cases hs : storeGet st pid <;> simp [Handler.get, hpid, hs]
  · simp [Handler.update, jsonLoads, hpid, hc, ha]
  · simp [Handler.update, jsonLoads, hpid]
  · simp [Handler.update, jsonLoads, hpid, h0]
  · simp [Handler.delete, hpid]

/-- C4 amended witness: concrete well-formed and ill-formed inputs. -/
theorem operations_envelope_on_wellformed_input_witness :
    assocGet [("postId", "p1")] "postId" = some "p1" ∧
    assocGet [("content", "x"), ("author", "y")] "content" = some "x" ∧
    assocGet [("content", "x"), ("author", "y")] "author" = some "y" ∧
    assocGet [("author", "y")] "content" = none ∧
    ((Handler.create { body := some (RawBody.obj [("content", "x"), ("author", "y")])
                       pathParameters := some [("postId", "p1")] }
      "t0" "id0" [] 200).isSome ∧
    Handler.create { body := some RawBody.malformed
                     pathParameters := some [("postId", "p1")] }
      "t0" "id0" [] 200 = none ∧
    (Handler.get { body := none, pathParameters := some [("postId", "p1")] } []).isSome ∧
    (Handler.update { body := some (RawBody.obj [("content", "x"), ("author", "y")])
                      pathParameters := some [("postId", "p1")] }
      "t0" [] 200).isSome ∧
    Handler.update { body := some RawBody.malformed
                     pathParameters := some [("postId", "p1")] }
      "t0" [] 200 = none ∧
    Handler.update { body := some (RawBody.obj [("author", "y")])
                     pathParameters := some [("postId", "p1")] }
      "t0" [] 200 = none ∧
    (Handler.delete { body := none, pathParameters := some [("postId", "p1")] }
      [] 200).isSome) :=
  ⟨by decide, by decide, by decide, by decide,
    operations_envelope_on_wellformed_input [("content", "x"), ("author", "y")]
      [("author", "y")] [("postId", "p1")] "p1" "x" "y" "t0" "id0" [] 200 none
      (by decide) (by decide) (by decide) (by decide)⟩

/-- C5 counterexample: `all` never inspects the scan response's status;
on an empty store with a reported scan status of 500 it still returns
statusCode 200 with the JSON of the empty array, not the 500 default
envelope the claim requires. -/
theorem all_ignores_scan_status_counterexample :
    Handler.all [] 500 = { statusCode := 200, headers := [], body := some "[]" } ∧
    (Handler.all [] 500).statusCode ≠ 500 := by
  exact ⟨by decide, by decide⟩

/-- C5 amended: create, update and delete return statusCode 500 with
their fixed error-message bodies whenever the store call completes with
a non-200 status, but `all` never checks the scan's status and returns
statusCode 200 whenever the scan completes (and get branches on item
presence, not on a status). -/
theorem store_error_maps_to_500_except_all (p params : Plain)
    (pid c a now freshId : String) (st : Store) (status : Nat)
    (hpid : assocGet params "postId" = some pid)
    (hc : assocGet p "content" = some c) (ha : assocGet p "author" = some a)
    (hstatus : status ≠ 200) :
    Handler.create { body := some (RawBody.obj p), pathParameters := some params }
        now freshId st status =
      some ({ statusCode := 500, headers := []
              body := some "An error occurred while creating post." },
        storePut st (to_item (assocSet (assocSet p "createdAt" now) "id" freshId))) ∧
    Handler.update { body := some (RawBody.obj p), pathParameters := some params }
        now st status =
      some ({ statusCode := 500, headers := []
              body := some ("An error occurred while updating post " ++ pid) },
        storeUpdate st pid (setExpr c a now)) ∧
    Handler.delete { body := none, pathParameters := some params } st status =
      some ({ statusCode := 500, headers := []
              body := some ("An error occurred while deleting post " ++ pid) },
        storeDelete st pid) ∧
    (Handler.all st status).statusCode = 200 := by
  refine ⟨?_, ?_, ?_, ?_⟩
  · simp [Handler.create, jsonLoads, hstatus]
  · simp [Handler.update, jsonLoads, hpid, hc, ha, hstatus]
  · simp [Handler.delete, hpid, hstatus]
  · simp [Handler.all]

/-- C5 amended witness: a concrete non-200 store status (503). -/
theorem store_error_maps_to_500_except_all_witness :
    assocGet [("postId", "p1")] "postId" = some "p1" ∧
    assocGet [("content", "x"), ("author", "y")] "content" = some "x" ∧
    assocGet [("content", "x"), ("author", "y")] "author" = some "y" ∧
    (503 : Nat) ≠ 200 ∧
    (Handler.create { body := some (RawBody.obj [("content", "x"), ("author", "y")])
                      pathParameters := some [("postId", "p1")] }
        "t0" "id0" [] 503 =
      some ({ statusCode := 500, headers := []
              body := some "An error occurred while creating post." },
        storePut [] (to_item (assocSet (assocSet [("content", "x"), ("author", "y")]
          "createdAt" "t0") "id" "id0"))) ∧
    Handler.update { body := some (RawBody.obj [("content", "x"), ("author", "y")])
                     pathParameters := some [("postId", "p1")] }
        "t0" [] 503 =
      some ({ statusCode := 500, headers := []
              body := some ("An error occurred while updating post " ++ "p1") },
        storeUpdate [] "p1" (setExpr "x" "y" "t0")) ∧
    Handler.delete { body := none, pathParameters := some [("postId", "p1")] } [] 503 =
      some ({ statusCode := 500, headers := []
              body := some ("An error occurred while deleting post " ++ "p1") },
        storeDelete [] "p1") ∧
    (Handler.all [] 503).statusCode = 200) :=
  ⟨by decide, by decide, by decide, by decide,
    store_error_maps_to_500_except_all [("content", "x"), ("author", "y")]
      [("postId", "p1")] "p1" "x" "y" "t0" "id0" [] 503
      (by decide) (by decide) (by decide) (by decide)⟩
